import Mathlib

/-!
Shallow embedding of the order backend in `app.py` (Flask + Firestore).

The two request handlers, `handle_order_request` (POST /receive-order) and
`get_order_status` (POST /get-order-status), are modelled as pure functions.
External nondeterminism is passed in explicitly:

* the result of `request.get_json()` (a `ParseResult`);
* the server date `today` and the indices `picks` drawn by
  `random.choices` for the serial-number suffix;
* the server timestamp that Firestore substitutes for
  `firestore.SERVER_TIMESTAMP` on a successful write;
* whether the Firestore write (`order_ref.set`) respectively read
  (`order_ref.get()`) raises, and with which exception text.

The Firestore `orders` collection is an association list from document id
to document.  Each handler returns, besides the HTTP response, the
resulting store and the list of database operations it attempted, so that
frame properties ("performs no read", "the only mutation is one set") are
statable.  An uncaught Python exception (which Flask would turn into a
framework-level 500) is modelled by `Option.none`.
-/

namespace KPL

/-- Calendar date, as produced by `datetime.date.today()`. -/
structure Date where
  year : Nat
  month : Nat
  day : Nat

/-- Wall-clock timestamp, as materialised by Firestore for
`firestore.SERVER_TIMESTAMP`.  These are the only values in the program
for which Python's `hasattr(x, "strftime")` is true. -/
structure Timestamp where
  year : Nat
  month : Nat
  day : Nat
  hour : Nat
  minute : Nat
  second : Nat

/-- A Python value as it flows through the handlers: the six JSON shapes
produced by `request.get_json()` (numbers collapsed to `Int`, which is all
the claims need), plus datetime-like values read back from Firestore. -/
inductive PyVal where
  | null
  | bool (b : Bool)
  | num (n : Int)
  | str (s : String)
  | arr (l : List PyVal)
  | obj (l : List (String × PyVal))
  | timestamp (t : Timestamp)

/-- A Firestore document: the field mapping of one order. -/
abbrev Doc := List (String × PyVal)

/-- The `orders` collection: document id to document.  Python dicts and
Firestore documents have unique keys; lookup takes the first match. -/
abbrev Store := List (String × Doc)

/-- Dictionary lookup, first match — the semantics of `d[k]` and of
`d.get(k)` (the latter via `Option`). -/
def alget {α : Type} : List (String × α) → String → Option α
  | [], _ => none
  | (k, v) :: rest, key => if k = key then some v else alget rest key

/-- Python `d.get(key, dflt)`. -/
def algetD (l : List (String × PyVal)) (key : String) (dflt : PyVal) : PyVal :=
  (alget l key).getD dflt

/-- Replacement of the value at a key, `d[k] = v` on a dict that already
holds `k` (Python keeps the insertion position). -/
def alset {α : Type} (l : List (String × α)) (key : String) (v : α) :
    List (String × α) :=
  l.map (fun p => if p.1 = key then (key, v) else p)

/-- Firestore `document(k).set(d)`: unconditionally replaces whatever
document is stored under `k` — there is no existence check. -/
def storeSet (s : Store) (k : String) (d : Doc) : Store :=
  (k, d) :: s.filter (fun p => p.1 ≠ k)

/-- Python truthiness, as tested by `if not order_data` and
`if not serial_number`. -/
def truthy : PyVal → Bool
  | .null => false
  | .bool b => b
  | .num n => n != 0
  | .str s => !s.data.isEmpty
  | .arr l => !l.isEmpty
  | .obj l => !l.isEmpty
  | .timestamp _ => true

/-- Outcome of `request.get_json()`: either the call raised (invalid body,
wrong content type, ...), with the exception text, or it returned a value. -/
inductive ParseResult where
  | fail (err : String)
  | ok (v : PyVal)

/-- One call to the Firestore client. -/
inductive DbOp where
  | read (key : String)
  | write (key : String) (doc : Doc)

/-- An HTTP response: status code plus JSON body. -/
structure HttpResponse where
  code : Nat
  body : PyVal

/-- What one handler invocation produces: the response, the store after
the call, and the database operations attempted during the call. -/
structure Outcome where
  resp : HttpResponse
  store : Store
  ops : List DbOp

/-- Field access in a JSON response body. -/
def bodyField (r : HttpResponse) (key : String) : Option PyVal :=
  match r.body with
  | .obj l => alget l key
  | _ => none

/-- The digit character of `n % 10`. -/
def digitChar (n : Nat) : Char :=
  match n % 10 with
  | 0 => '0' | 1 => '1' | 2 => '2' | 3 => '3' | 4 => '4'
  | 5 => '5' | 6 => '6' | 7 => '7' | 8 => '8' | _ => '9'

/-- Two-digit zero-padded decimal, the `%y` / `%m` / `%d` / `%H` / `%M` /
`%S` directives of `strftime` (their arguments are always below 100). -/
def pad2 (n : Nat) : String :=
  String.mk [digitChar (n / 10), digitChar n]

/-- Four-digit zero-padded decimal, the `%Y` directive of `strftime`
(`datetime` years are below 10000). -/
def pad4 (n : Nat) : String :=
  String.mk [digitChar (n / 1000), digitChar (n / 100), digitChar (n / 10),
    digitChar n]

/-- Line 83: `today.strftime("%y%m%d")`. -/
def strftime_yymmdd (d : Date) : String :=
  pad2 (d.year % 100) ++ pad2 d.month ++ pad2 d.day

/-- Line 135: `strftime("%Y-%m-%d %H:%M:%S")` applied to the stored
`orderDate` timestamp. -/
def strftimeFull (t : Timestamp) : String :=
  pad4 t.year ++ "-" ++ pad2 t.month ++ "-" ++ pad2 t.day ++ " " ++
    pad2 t.hour ++ ":" ++ pad2 t.minute ++ ":" ++ pad2 t.second

/-- The alphabet of line 84: `'0123456789ABCDEFGHIJKLMNOPQRSTUVWXYZ'`. -/
def ALPHABET : List Char :=
  "0123456789ABCDEFGHIJKLMNOPQRSTUVWXYZ".toList

/-- Line 84: `''.join(random.choices(ALPHABET, k=6))`.  The random draw is
externalised as the list `picks` of chosen indices (each below 36, six of
them, when produced by `random.choices`). -/
def randomChoices (picks : List Nat) : String :=
  String.mk (picks.map (fun p => ALPHABET.getD p '0'))

/-- Lines 82-85: the official serial number
`"KPL-" + today.strftime("%y%m%d") + "-" + random_suffix`. -/
def mkSerial (d : Date) (picks : List Nat) : String :=
  "KPL-" ++ strftime_yymmdd d ++ "-" ++ randomChoices picks

/-- Whether the diagnostic loop of lines 77-78
(`for test in selected_tests: print(... test.get('name') ...)`) runs
without raising: `selected_tests` must be iterable and every element must
support `.get`, i.e. be a dict.  Iterating an empty string or an empty
dict yields nothing and is also safe. -/
def printLoopOk : PyVal → Bool
  | .arr l => l.all (fun t => match t with | .obj _ => true | _ => false)
  | .str s => s.data.isEmpty
  | .obj l => l.isEmpty
  | _ => false

/-- Lines 93-100: the document saved to Firestore (the handler's
`order_data_to_save`), with `firestore.SERVER_TIMESTAMP` resolved by the
server to the timestamp `t`. -/
def orderDataToSave (fields : List (String × PyVal)) (serial : String)
    (t : Timestamp) : Doc :=
  [("serialNumber", .str serial),
   ("patientName", algetD fields "patientName" (.str "N/A")),
   ("phoneNumber", algetD fields "phoneNumber" (.str "N/A")),
   ("emailAddress", algetD fields "emailAddress" (.str "N/A")),
   ("tests", algetD fields "tests" (.arr [])),
   ("orderDate", .timestamp t)]

/-- Lines 55-114, `handle_order_request` (POST /receive-order).
`body` is the outcome of `request.get_json()`; `today` and `picks` feed
the serial number; `serverTime` is what Firestore substitutes for
`SERVER_TIMESTAMP` if the write applies; `writeFails` says whether
`order_ref.set` raises (that exception is caught and only logged —
lines 103-105).  `none` models an uncaught exception: a truthy non-dict
body makes `.get` raise `AttributeError` (line 67), and a `tests` value
the print loop cannot iterate raises at lines 77-78, both outside any
`try` that would catch them. -/
def handle_order_request (body : ParseResult) (today : Date)
    (picks : List Nat) (serverTime : Timestamp) (writeFails : Bool)
    (store : Store) : Option Outcome :=
  match body with
  | .fail _ =>
    some ⟨⟨400, .obj [("success", .bool false),
                      ("message", .str "Invalid JSON format.")]⟩, store, []⟩
  | .ok order_data =>
    if truthy order_data = false then
      some ⟨⟨400, .obj [("success", .bool false),
                        ("message", .str "No data received or data is not JSON.")]⟩,
            store, []⟩
    else
      match order_data with
      | .obj fields =>
        let patient_name := algetD fields "patientName" (.str "N/A")
        let selected_tests := algetD fields "tests" (.arr [])
        if printLoopOk selected_tests = false then none
        else
          let official_serial_number := mkSerial today picks
          let order_doc := orderDataToSave fields official_serial_number serverTime
          let store2 := if writeFails then store
                        else storeSet store official_serial_number order_doc
          some ⟨⟨200, .obj [("success", .bool true),
                            ("message", .str "Order received successfully by Receiving App!"),
                            ("serialNumber", .str official_serial_number),
                            ("patientName", patient_name),
                            ("selected_tests", selected_tests)]⟩,
                store2, [.write official_serial_number order_doc]⟩
      | _ => none

/-- The CPython `AttributeError` text raised by `x.get(...)` when `x` is
not a dict (quoting of the type name elided). -/
def attrErrMsg (v : PyVal) : String :=
  (match v with
   | .null => "NoneType"
   | .bool _ => "bool"
   | .num _ => "int"
   | .str _ => "str"
   | .arr _ => "list"
   | .obj _ => "dict"
   | .timestamp _ => "DatetimeWithNanoseconds") ++
  " object has no attribute get"

/-- The error text the Firestore client raises when `document(p)` is
given a non-string path (modelled library behaviour; no claim depends on
the exact wording). -/
def docPathErr : String := "Document path must be a string."

/-- Lines 133-135: replace the stored `orderDate` by its display string
when it is datetime-like (`if 'orderDate' in order_details and
hasattr(order_details['orderDate'], 'strftime')`). -/
def convertOrderDate (order_details : Doc) : Doc :=
  match alget order_details "orderDate" with
  | some (.timestamp t) =>
    alset order_details "orderDate" (.str (strftimeFull t))
  | _ => order_details

/-- Lines 117-142, `get_order_status` (POST /get-order-status).  The whole
body sits in one `try`, so every exception — a failed `get_json`, the
`AttributeError` from `.get` on a non-dict body, a non-string document
path, or a raised Firestore read (`readFails`) — lands in the single
`except` of lines 140-142, which answers 500 with the exception text
interpolated.  The handler never writes the store. -/
def get_order_status (body : ParseResult) (readFails : Option String)
    (store : Store) : Outcome :=
  match body with
  | .fail err =>
    ⟨⟨500, .obj [("status", .str "error"),
                 ("message", .str ("Internal server error: " ++ err))]⟩, store, []⟩
  | .ok request_data =>
    match request_data with
    | .obj fields =>
      let serial_number := algetD fields "serialNumber" .null
      if truthy serial_number = false then
        ⟨⟨400, .obj [("status", .str "error"),
                     ("message", .str "Serial number is required.")]⟩, store, []⟩
      else
        match serial_number with
        | .str sn =>
          match readFails with
          | some err =>
            ⟨⟨500, .obj [("status", .str "error"),
                         ("message", .str ("Internal server error: " ++ err))]⟩,
             store, [.read sn]⟩
          | none =>
            match alget store sn with
            | some order_details =>
              ⟨⟨200, .obj [("status", .str "success"),
                           ("order", .obj (convertOrderDate order_details))]⟩,
               store, [.read sn]⟩
            | none =>
              ⟨⟨404, .obj [("status", .str "error"),
                           ("message", .str "Order not found.")]⟩, store, [.read sn]⟩
        | _ =>
          ⟨⟨500, .obj [("status", .str "error"),
                       ("message", .str ("Internal server error: " ++ docPathErr))]⟩,
           store, []⟩
    | other =>
      ⟨⟨500, .obj [("status", .str "error"),
                   ("message", .str ("Internal server error: " ++ attrErrMsg other))]⟩,
       store, []⟩

mutual

/-- Whether a value can come out of `request.get_json()`: plain JSON data,
which in particular contains no datetime-like value anywhere. -/
def jsonVal : PyVal → Bool
  | .null => true
  | .bool _ => true
  | .num _ => true
  | .str _ => true
  | .arr l => jsonValList l
  | .obj l => jsonValFields l
  | .timestamp _ => false

/-- Pointwise `jsonVal` over an array. -/
def jsonValList : List PyVal → Bool
  | [] => true
  | v :: l => jsonVal v && jsonValList l

/-- Pointwise `jsonVal` over an object's fields. -/
def jsonValFields : List (String × PyVal) → Bool
  | [] => true
  | (_, v) :: l => jsonVal v && jsonValFields l

end

/-- Whether a `request.get_json()` outcome is consistent with the request
body being what HTTP delivers, i.e. either the call raised or it produced
plain JSON data. -/
def jsonBody : ParseResult → Bool
  | .fail _ => true
  | .ok v => jsonVal v

/-- The regular expression `KPL-\d{6}-[0-9A-Z]{6}` as a Boolean check. -/
def matchesKplPattern (s : String) : Bool :=
  decide (s.data.length = 17) &&
  decide (s.data.take 4 = "KPL-".data) &&
  ((s.data.drop 4).take 6).all Char.isDigit &&
  decide (s.data.getD 10 ' ' = '-') &&
  (s.data.drop 11).all (fun c => decide (c ∈ ALPHABET))

/-- The stores this system can produce: starting from an empty `orders`
collection, each step is one intake call on some JSON request body (the
lookup handler never changes the store, see `handlers_store_effects`). -/
inductive Reachable : Store → Prop where
  | empty : Reachable []
  | intake_step (store : Store) (body : ParseResult) (d : Date)
      (picks : List Nat) (t : Timestamp) (wf : Bool) (o : Outcome) :
      Reachable store → jsonBody body = true →
      handle_order_request body d picks t wf store = some o →
      Reachable o.store

/-- Whether a `request.get_json()` outcome is anything other than a JSON
object: the parser raised, or it produced a non-object value. -/
def nonObjectBody : ParseResult → Bool
  | .fail _ => true
  | .ok (.obj _) => false
  | .ok _ => true

/-- In every document of the store, a datetime-like value can sit only
under the key `orderDate`. -/
def storeInv (store : Store) : Prop :=
  ∀ key doc, (key, doc) ∈ store →
    ∀ k ts, (k, PyVal.timestamp ts) ∈ doc → k = "orderDate"

/-- A concrete serial number, for instantiating the theorems: the one
generated on 2025-05-31 with random indices 1..6. -/
def demoSerial : String := mkSerial ⟨2025, 5, 31⟩ [1, 2, 3, 4, 5, 6]

/-- The document that the intake handler stores for the body
`{"patientName": "Jane Doe"}` under `demoSerial`. -/
def demoDoc : Doc :=
  [("serialNumber", .str demoSerial),
   ("patientName", .str "Jane Doe"),
   ("phoneNumber", .str "N/A"),
   ("emailAddress", .str "N/A"),
   ("tests", .arr []),
   ("orderDate", .timestamp ⟨2025, 5, 31, 10, 0, 0⟩)]

/-- The store produced by that one successful intake call on an empty
collection. -/
def demoStore : Store := [(demoSerial, demoDoc)]

/-- The outcome of the same intake call when the Firestore write raises:
the response is unchanged, the store stays empty. -/
def demoOutcome : Outcome :=
  ⟨⟨200, .obj [("success", .bool true),
               ("message", .str "Order received successfully by Receiving App!"),
               ("serialNumber", .str demoSerial),
               ("patientName", .str "Jane Doe"),
               ("selected_tests", .arr [])]⟩,
   [], [.write demoSerial demoDoc]⟩

/-! Helper lemmas about the dictionary and store primitives. -/

theorem alget_mem {α : Type} {l : List (String × α)} {k : String} {v : α}
    (h : alget l k = some v) : (k, v) ∈ l := by
  induction l with
  | nil => simp [alget] at h
  | cons p rest ih =>
    obtain ⟨k1, v1⟩ := p
    by_cases hk : k1 = k
    · subst hk
      simp [alget] at h
      simp [h]
    · simp [alget, hk] at h
      exact List.mem_cons_of_mem _ (ih h)

theorem alget_storeSet_self (store : Store) (k : String) (d : Doc) :
    alget (storeSet store k d) k = some d := by
  simp [storeSet, alget]

theorem alset_cons {α : Type} (k1 : String) (v1 : α)
    (rest : List (String × α)) (k : String) (v : α) :
    alset ((k1, v1) :: rest) k v =
      (if k1 = k then (k, v) else (k1, v1)) :: alset rest k v := by
  simp [alset]

theorem alget_alset_self {α : Type} {l : List (String × α)} {k : String}
    {w : α} (h : alget l k = some w) (v : α) :
    alget (alset l k v) k = some v := by
  induction l with
  | nil => simp [alget] at h
  | cons p rest ih =>
    obtain ⟨k1, v1⟩ := p
    rw [alset_cons]
    by_cases hk : k1 = k
    · rw [if_pos hk]
      simp [alget]
    · rw [if_neg hk]
      simp only [alget, hk, if_false, if_neg] at h ⊢
      exact ih h

theorem obj_truthy {l : List (String × PyVal)} (h : l ≠ []) :
    truthy (.obj l) = true := by
  cases l with
  | nil => exact absurd rfl h
  | cons p rest => rfl

theorem str_truthy {s : String} (h : s.data ≠ []) :
    truthy (.str s) = true := by
  have he : truthy (.str s) = (s.data.isEmpty == false) := by
    cases hi : s.data.isEmpty
    · simp [truthy, hi]
    · simp [truthy, hi]
  rw [he]
  cases hd : s.data with
  | nil => exact absurd hd h
  | cons c cs => rfl

/-! Helper lemmas about the serial number characters. -/

theorem digitChar_isDigit (n : Nat) : (digitChar n).isDigit = true := by
  unfold digitChar
  have h : n % 10 < 10 := Nat.mod_lt _ (by norm_num)
  revert h
  generalize n % 10 = m
  intro h
  interval_cases m <;> rfl

theorem alphabet_getD_mem : ∀ p : Nat, p < 36 → ALPHABET.getD p '0' ∈ ALPHABET := by
  decide

theorem mkSerial_data (d : Date) (picks : List Nat) :
    (mkSerial d picks).data =
      'K' :: 'P' :: 'L' :: '-' ::
      digitChar (d.year % 100 / 10) :: digitChar (d.year % 100) ::
      digitChar (d.month / 10) :: digitChar d.month ::
      digitChar (d.day / 10) :: digitChar d.day :: '-' ::
      picks.map (fun p => ALPHABET.getD p '0') := by
  simp [mkSerial, strftime_yymmdd, pad2, randomChoices, String.data_append]

theorem strftime_yymmdd_data (d : Date) :
    (strftime_yymmdd d).data =
      [digitChar (d.year % 100 / 10), digitChar (d.year % 100),
       digitChar (d.month / 10), digitChar d.month,
       digitChar (d.day / 10), digitChar d.day] := by
  simp [strftime_yymmdd, pad2, String.data_append]

theorem mkSerial_data_ne_nil (d : Date) (picks : List Nat) :
    (mkSerial d picks).data ≠ [] := by
  rw [mkSerial_data]
  simp

theorem matchesKplPattern_mkSerial (d : Date) {picks : List Nat}
    (hlen : picks.length = 6) (hlt : ∀ p ∈ picks, p < 36) :
    matchesKplPattern (mkSerial d picks) = true := by
  unfold matchesKplPattern
  rw [mkSerial_data]
  simp only [Bool.and_eq_true, decide_eq_true_eq]
  refine ⟨⟨⟨⟨?_, ?_⟩, ?_⟩, ?_⟩, ?_⟩
  · simp [hlen]
  · rfl
  · simp [digitChar_isDigit]
  · rfl
  · simp only [List.drop, List.all_eq_true]
    intro c hc
    obtain ⟨p, hp, rfl⟩ := List.mem_map.mp hc
    exact decide_eq_true (alphabet_getD_mem p (hlt p hp))

theorem mkSerial_date_digits (d : Date) (picks : List Nat) :
    ((mkSerial d picks).data.drop 4).take 6 = (strftime_yymmdd d).data := by
  rw [mkSerial_data, strftime_yymmdd_data]
  rfl

/-! Unfolding lemmas for the two handlers. -/

theorem intake_obj_run {fields : List (String × PyVal)} (hne : fields ≠ [])
    (hloop : printLoopOk (algetD fields "tests" (.arr [])) = true)
    (d : Date) (picks : List Nat) (t : Timestamp) (wf : Bool) (store : Store) :
    handle_order_request (.ok (.obj fields)) d picks t wf store =
      some ⟨⟨200, .obj [("success", .bool true),
                        ("message", .str "Order received successfully by Receiving App!"),
                        ("serialNumber", .str (mkSerial d picks)),
                        ("patientName", algetD fields "patientName" (.str "N/A")),
                        ("selected_tests", algetD fields "tests" (.arr []))]⟩,
            (if wf then store
             else storeSet store (mkSerial d picks)
               (orderDataToSave fields (mkSerial d picks) t)),
            [.write (mkSerial d picks) (orderDataToSave fields (mkSerial d picks) t)]⟩ := by
  simp [handle_order_request, obj_truthy hne, hloop]

theorem lookup_found_run {store : Store} {sn : String} {doc : Doc}
    (hne : sn.data ≠ []) (hdoc : alget store sn = some doc) :
    get_order_status (.ok (.obj [("serialNumber", .str sn)])) none store =
      ⟨⟨200, .obj [("status", .str "success"),
                   ("order", .obj (convertOrderDate doc))]⟩,
       store, [.read sn]⟩ := by
  unfold get_order_status
  simp [algetD, alget, str_truthy hne, hdoc]

/-! Claim theorems. -/

/-- C1: for every non-empty JSON object submitted to the order intake
handler, if the database write of the order document raises (so in
particular the handler reaches the write, which requires the diagnostic
print loop over `tests` not to raise first), the handler still returns
HTTP 200 with `success: true` and the generated serial number, and the
store is left unchanged: the write failure never surfaces in the
response. -/
theorem intake_write_failure_still_success
    {fields : List (String × PyVal)} (hne : fields ≠ [])
    (hloop : printLoopOk (algetD fields "tests" (.arr [])) = true)
    (d : Date) (picks : List Nat) (t : Timestamp) (store : Store) :
    ∃ o : Outcome,
      handle_order_request (.ok (.obj fields)) d picks t true store = some o ∧
      o.resp.code = 200 ∧
      bodyField o.resp "success" = some (.bool true) ∧
      bodyField o.resp "serialNumber" = some (.str (mkSerial d picks)) ∧
      o.store = store := by
  refine ⟨_, intake_obj_run hne hloop d picks t true store, rfl, ?_, ?_, rfl⟩
  · simp [bodyField, alget]
  · simp [bodyField, alget]

/-- Witness for C1 at a concrete order. -/
theorem intake_write_failure_still_success_witness :
    ∃ o : Outcome,
      handle_order_request (.ok (.obj [("patientName", .str "Jane Doe")]))
        ⟨2025, 5, 31⟩ [1, 2, 3, 4, 5, 6] ⟨2025, 5, 31, 10, 0, 0⟩ true [] = some o ∧
      o.resp.code = 200 ∧
      bodyField o.resp "success" = some (.bool true) ∧
      bodyField o.resp "serialNumber" =
        some (.str (mkSerial ⟨2025, 5, 31⟩ [1, 2, 3, 4, 5, 6])) ∧
      o.store = [] :=
  intake_write_failure_still_success (by simp) (by rfl) _ _ _ _

/-- C2: for every valid (non-empty JSON object) intake payload on which
the handler answers, the serial number it returns matches
`KPL-\d{6}-[0-9A-Z]{6}`, the six digits being the server date formatted
`YYMMDD` and the six trailing characters drawn from the alphabet
`0-9A-Z` by `random.choices` (which picks six indices below 36). -/
theorem intake_serial_number_format
    {fields : List (String × PyVal)} (hne : fields ≠ [])
    (hloop : printLoopOk (algetD fields "tests" (.arr [])) = true)
    {picks : List Nat} (hlen : picks.length = 6) (hlt : ∀ p ∈ picks, p < 36)
    (d : Date) (t : Timestamp) (wf : Bool) (store : Store) :
    ∃ o : Outcome,
      handle_order_request (.ok (.obj fields)) d picks t wf store = some o ∧
      bodyField o.resp "serialNumber" = some (.str (mkSerial d picks)) ∧
      matchesKplPattern (mkSerial d picks) = true ∧
      ((mkSerial d picks).data.drop 4).take 6 = (strftime_yymmdd d).data :=
  ⟨_, intake_obj_run hne hloop d picks t wf store,
    by simp [bodyField, alget],
    matchesKplPattern_mkSerial d hlen hlt,
    mkSerial_date_digits d picks⟩

/-- Witness for C2 at a concrete order. -/
theorem intake_serial_number_format_witness :
    ∃ o : Outcome,
      handle_order_request (.ok (.obj [("patientName", .str "Jane Doe")]))
        ⟨2025, 5, 31⟩ [1, 2, 3, 4, 5, 6] ⟨2025, 5, 31, 10, 0, 0⟩ false [] = some o ∧
      bodyField o.resp "serialNumber" =
        some (.str (mkSerial ⟨2025, 5, 31⟩ [1, 2, 3, 4, 5, 6])) ∧
      matchesKplPattern (mkSerial ⟨2025, 5, 31⟩ [1, 2, 3, 4, 5, 6]) = true ∧
      ((mkSerial ⟨2025, 5, 31⟩ [1, 2, 3, 4, 5, 6]).data.drop 4).take 6 =
        (strftime_yymmdd ⟨2025, 5, 31⟩).data :=
  intake_serial_number_format (by simp) (by rfl) (by rfl) (by decide) _ _ _ _

/-- C5: a lookup request whose JSON object body has no `serialNumber`
field is answered 400 with status `error` and the message
`Serial number is required.`, and no database operation is performed —
in particular the result is the same for every store and for every
behaviour of the read. -/
theorem lookup_missing_serial_client_error
    {fields : List (String × PyVal)}
    (hmissing : alget fields "serialNumber" = none)
    (rf : Option String) (store : Store) :
    get_order_status (.ok (.obj fields)) rf store =
      ⟨⟨400, .obj [("status", .str "error"),
                   ("message", .str "Serial number is required.")]⟩,
       store, []⟩ := by
  unfold get_order_status
  simp [algetD, hmissing, truthy]

/-- Witness for C5 at a concrete body. -/
theorem lookup_missing_serial_client_error_witness :
    get_order_status (.ok (.obj [("name", .str "Jane Doe")])) none [] =
      ⟨⟨400, .obj [("status", .str "error"),
                   ("message", .str "Serial number is required.")]⟩,
       [], []⟩ :=
  lookup_missing_serial_client_error (by rfl) none []

/-- C6: a lookup for a (non-empty, hence truthy) serial number under
which no document is stored, with a read that does not raise, is
answered 404 with status `error` and a not-found message; the store is
returned unchanged and the only database operation is the one read. -/
theorem lookup_not_found_404
    {fields : List (String × PyVal)} {sn : String}
    (hsn : alget fields "serialNumber" = some (.str sn)) (hne : sn.data ≠ [])
    (store : Store) (habsent : alget store sn = none) :
    get_order_status (.ok (.obj fields)) none store =
      ⟨⟨404, .obj [("status", .str "error"),
                   ("message", .str "Order not found.")]⟩,
       store, [.read sn]⟩ := by
  unfold get_order_status
  simp [algetD, hsn, str_truthy hne, habsent]

/-- Witness for C6 at the serial number the spec uses as its example. -/
theorem lookup_not_found_404_witness :
    get_order_status (.ok (.obj [("serialNumber", .str "KPL-000000-AAAAAA")])) none [] =
      ⟨⟨404, .obj [("status", .str "error"),
                   ("message", .str "Order not found.")]⟩,
       [], [.read "KPL-000000-AAAAAA"]⟩ :=
  lookup_not_found_404 (by rfl) (by decide) [] rfl

/-- C7: when the Firestore read raises, whatever the exception text, the
lookup handler answers 500 with status `error` and the raw exception
text embedded in the message; the single attempted read is the only
database operation (no retry), and the response shape does not depend on
the exception's cause. -/
theorem lookup_read_exception_500
    {fields : List (String × PyVal)} {sn : String}
    (hsn : alget fields "serialNumber" = some (.str sn)) (hne : sn.data ≠ [])
    (err : String) (store : Store) :
    get_order_status (.ok (.obj fields)) (some err) store =
      ⟨⟨500, .obj [("status", .str "error"),
                   ("message", .str ("Internal server error: " ++ err))]⟩,
       store, [.read sn]⟩ := by
  unfold get_order_status
  simp [algetD, hsn, str_truthy hne]

/-- Witness for C7 at a concrete exception. -/
theorem lookup_read_exception_500_witness :
    get_order_status (.ok (.obj [("serialNumber", .str "KPL-250531-123456")]))
      (some "deadline exceeded") [] =
      ⟨⟨500, .obj [("status", .str "error"),
                   ("message", .str ("Internal server error: " ++ "deadline exceeded"))]⟩,
       [], [.read "KPL-250531-123456"]⟩ :=
  lookup_read_exception_500 (by rfl) (by decide) "deadline exceeded" []

/-- C10: a lookup request whose body is not a JSON object — the parser
raised, or it produced a non-object value — is answered through the
catch-all 500 path, with the exception text interpolated into the
message, never through a 400 client error; no database operation is
performed. -/
theorem lookup_non_object_body_500 (body : ParseResult)
    (hno : nonObjectBody body = true) (rf : Option String) (store : Store) :
    ∃ msg, get_order_status body rf store =
      ⟨⟨500, .obj [("status", .str "error"),
                   ("message", .str ("Internal server error: " ++ msg))]⟩,
       store, []⟩ := by
  cases body with
  | fail e => exact ⟨e, rfl⟩
  | ok v =>
    cases v with
    | obj l => simp [nonObjectBody] at hno
    | null => exact ⟨_, rfl⟩
    | bool b => exact ⟨_, rfl⟩
    | num n => exact ⟨_, rfl⟩
    | str s => exact ⟨_, rfl⟩
    | arr l => exact ⟨_, rfl⟩
    | timestamp t => exact ⟨_, rfl⟩

/-- Witness for C10 on a body that parses to a JSON array. -/
theorem lookup_non_object_body_500_witness :
    ∃ msg, get_order_status (.ok (.arr [.num 1])) none [] =
      ⟨⟨500, .obj [("status", .str "error"),
                   ("message", .str ("Internal server error: " ++ msg))]⟩,
       [], []⟩ :=
  lookup_non_object_body_500 (.ok (.arr [.num 1])) rfl none []

/-- C3: round-trip. If an intake call carrying a `patientName` and an
iterable-with-dict-elements `tests` list succeeds with a successful
database write, then looking up the serial number returned by that
intake yields HTTP 200, status `success`, and an order whose
`patientName` and `tests` are exactly the submitted ones. -/
theorem intake_lookup_roundtrip
    {fields : List (String × PyVal)} {pn ts : PyVal}
    (hpn : alget fields "patientName" = some pn)
    (hts : alget fields "tests" = some ts)
    (hloop : printLoopOk ts = true)
    (d : Date) (picks : List Nat) (t : Timestamp) (store : Store) :
    ∃ o : Outcome,
      handle_order_request (.ok (.obj fields)) d picks t false store = some o ∧
      bodyField o.resp "success" = some (.bool true) ∧
      bodyField o.resp "serialNumber" = some (.str (mkSerial d picks)) ∧
      (get_order_status (.ok (.obj [("serialNumber", .str (mkSerial d picks))]))
          none o.store).resp.code = 200 ∧
      bodyField (get_order_status (.ok (.obj [("serialNumber", .str (mkSerial d picks))]))
          none o.store).resp "status" = some (.str "success") ∧
      ∃ od, bodyField (get_order_status (.ok (.obj [("serialNumber", .str (mkSerial d picks))]))
          none o.store).resp "order" = some (.obj od) ∧
        alget od "patientName" = some pn ∧
        alget od "tests" = some ts := by
  have hne : fields ≠ [] := by
    intro h
    rw [h] at hpn
    simp [alget] at hpn
  have hloop2 : printLoopOk (algetD fields "tests" (.arr [])) = true := by
    simp [algetD, hts, hloop]
  have hdoc : alget (if false then store
        else storeSet store (mkSerial d picks)
          (orderDataToSave fields (mkSerial d picks) t)) (mkSerial d picks) =
      some (orderDataToSave fields (mkSerial d picks) t) := by
    simp [alget_storeSet_self]
  have hlk := lookup_found_run (mkSerial_data_ne_nil d picks) hdoc
  refine ⟨_, intake_obj_run hne hloop2 d picks t false store, ?_, ?_, ?_, ?_, ?_⟩
  · simp [bodyField, alget]
  · simp [bodyField, alget]
  · rw [hlk]
  · rw [hlk]
    simp [bodyField, alget]
  · rw [hlk]
    refine ⟨convertOrderDate (orderDataToSave fields (mkSerial d picks) t), ?_, ?_, ?_⟩
    · simp [bodyField, alget]
    · simp [convertOrderDate, orderDataToSave, algetD, alget, alset, hpn]
    · simp [convertOrderDate, orderDataToSave, algetD, alget, alset, hts]

/-- Witness for C3 at the order of the spec example: Jane Doe with one
CBC test. -/
theorem intake_lookup_roundtrip_witness :
    ∃ o : Outcome,
      handle_order_request (.ok (.obj
        [("patientName", .str "Jane Doe"),
         ("tests", .arr [.obj [("id", .num 1), ("name", .str "CBC"), ("price", .num 20)]])]))
        ⟨2025, 5, 31⟩ [1, 2, 3, 4, 5, 6] ⟨2025, 5, 31, 10, 0, 0⟩ false [] = some o ∧
      bodyField o.resp "success" = some (.bool true) ∧
      bodyField o.resp "serialNumber" = some (.str (mkSerial ⟨2025, 5, 31⟩ [1, 2, 3, 4, 5, 6])) ∧
      (get_order_status (.ok (.obj [("serialNumber", .str (mkSerial ⟨2025, 5, 31⟩ [1, 2, 3, 4, 5, 6]))]))
          none o.store).resp.code = 200 ∧
      bodyField (get_order_status (.ok (.obj [("serialNumber", .str (mkSerial ⟨2025, 5, 31⟩ [1, 2, 3, 4, 5, 6]))]))
          none o.store).resp "status" = some (.str "success") ∧
      ∃ od, bodyField (get_order_status (.ok (.obj [("serialNumber", .str (mkSerial ⟨2025, 5, 31⟩ [1, 2, 3, 4, 5, 6]))]))
          none o.store).resp "order" = some (.obj od) ∧
        alget od "patientName" = some (.str "Jane Doe") ∧
        alget od "tests" = some (.arr [.obj [("id", .num 1), ("name", .str "CBC"), ("price", .num 20)]]) :=
  intake_lookup_roundtrip (by rfl) (by rfl) (by rfl) _ _ _ _

/-- C4 counterexample: the claim quantifies over every non-empty JSON
object, but the payload `{"tests": 5}` makes the diagnostic print loop
raise a `TypeError` before anything is stored or echoed — the handler
produces no response (the framework answers 500), so the absent
`patientName`, `phoneNumber` and `emailAddress` are neither stored nor
echoed as `N/A` for this payload. -/
theorem intake_crashes_on_non_iterable_tests :
    handle_order_request (.ok (.obj [("tests", .num 5)])) ⟨2025, 5, 31⟩
      [1, 2, 3, 4, 5, 6] ⟨2025, 5, 31, 10, 0, 0⟩ false [] = none := rfl

/-- C4 (amended): for every non-empty JSON object payload whose `tests`
field, when present, the diagnostic print loop can iterate (a list of
dicts, as the data model prescribes), the stored document and the
responses echo `fields.get(f, "N/A")` for each of `patientName`,
`phoneNumber`, `emailAddress`: absent fields become the string `N/A`,
and present fields are passed through completely unvalidated —
`patientName` echoed by intake, all three echoed by a subsequent
lookup. -/
theorem intake_default_fields
    {fields : List (String × PyVal)} (hne : fields ≠ [])
    (hloop : printLoopOk (algetD fields "tests" (.arr [])) = true)
    (d : Date) (picks : List Nat) (t : Timestamp) (store : Store) :
    ∃ o : Outcome,
      handle_order_request (.ok (.obj fields)) d picks t false store = some o ∧
      o.ops = [.write (mkSerial d picks) (orderDataToSave fields (mkSerial d picks) t)] ∧
      alget (orderDataToSave fields (mkSerial d picks) t) "patientName" =
        some (algetD fields "patientName" (.str "N/A")) ∧
      alget (orderDataToSave fields (mkSerial d picks) t) "phoneNumber" =
        some (algetD fields "phoneNumber" (.str "N/A")) ∧
      alget (orderDataToSave fields (mkSerial d picks) t) "emailAddress" =
        some (algetD fields "emailAddress" (.str "N/A")) ∧
      bodyField o.resp "patientName" = some (algetD fields "patientName" (.str "N/A")) ∧
      (∃ od, bodyField (get_order_status
          (.ok (.obj [("serialNumber", .str (mkSerial d picks))])) none o.store).resp
          "order" = some (.obj od) ∧
        alget od "patientName" = some (algetD fields "patientName" (.str "N/A")) ∧
        alget od "phoneNumber" = some (algetD fields "phoneNumber" (.str "N/A")) ∧
        alget od "emailAddress" = some (algetD fields "emailAddress" (.str "N/A"))) := by
  have hdoc : alget (if false then store
        else storeSet store (mkSerial d picks)
          (orderDataToSave fields (mkSerial d picks) t)) (mkSerial d picks) =
      some (orderDataToSave fields (mkSerial d picks) t) := by
    simp [alget_storeSet_self]
  have hlk := lookup_found_run (mkSerial_data_ne_nil d picks) hdoc
  refine ⟨_, intake_obj_run hne hloop d picks t false store, rfl, ?_, ?_, ?_, ?_, ?_⟩
  · simp [orderDataToSave, alget]
  · simp [orderDataToSave, alget]
  · simp [orderDataToSave, alget]
  · simp [bodyField, alget]
  · rw [hlk]
    refine ⟨convertOrderDate (orderDataToSave fields (mkSerial d picks) t), ?_, ?_, ?_, ?_⟩
    · simp [bodyField, alget]
    · simp [convertOrderDate, orderDataToSave, algetD, alget, alset]
    · simp [convertOrderDate, orderDataToSave, algetD, alget, alset]
    · simp [convertOrderDate, orderDataToSave, algetD, alget, alset]

/-- Witness for the amended C4: `phoneNumber` present but junk (stored
and echoed unvalidated), `patientName` and `emailAddress` absent
(stored and echoed as `N/A`). -/
theorem intake_default_fields_witness :
    ∃ o : Outcome,
      handle_order_request (.ok (.obj [("phoneNumber", .str "not a phone")]))
        ⟨2025, 5, 31⟩ [1, 2, 3, 4, 5, 6] ⟨2025, 5, 31, 10, 0, 0⟩ false [] = some o ∧
      o.ops = [.write (mkSerial ⟨2025, 5, 31⟩ [1, 2, 3, 4, 5, 6])
        (orderDataToSave [("phoneNumber", .str "not a phone")]
          (mkSerial ⟨2025, 5, 31⟩ [1, 2, 3, 4, 5, 6]) ⟨2025, 5, 31, 10, 0, 0⟩)] ∧
      alget (orderDataToSave [("phoneNumber", .str "not a phone")]
          (mkSerial ⟨2025, 5, 31⟩ [1, 2, 3, 4, 5, 6]) ⟨2025, 5, 31, 10, 0, 0⟩) "patientName" =
        some (algetD [("phoneNumber", .str "not a phone")] "patientName" (.str "N/A")) ∧
      alget (orderDataToSave [("phoneNumber", .str "not a phone")]
          (mkSerial ⟨2025, 5, 31⟩ [1, 2, 3, 4, 5, 6]) ⟨2025, 5, 31, 10, 0, 0⟩) "phoneNumber" =
        some (algetD [("phoneNumber", .str "not a phone")] "phoneNumber" (.str "N/A")) ∧
      alget (orderDataToSave [("phoneNumber", .str "not a phone")]
          (mkSerial ⟨2025, 5, 31⟩ [1, 2, 3, 4, 5, 6]) ⟨2025, 5, 31, 10, 0, 0⟩) "emailAddress" =
        some (algetD [("phoneNumber", .str "not a phone")] "emailAddress" (.str "N/A")) ∧
      bodyField o.resp "patientName" =
        some (algetD [("phoneNumber", .str "not a phone")] "patientName" (.str "N/A")) ∧
      (∃ od, bodyField (get_order_status
          (.ok (.obj [("serialNumber", .str (mkSerial ⟨2025, 5, 31⟩ [1, 2, 3, 4, 5, 6]))])) none o.store).resp
          "order" = some (.obj od) ∧
        alget od "patientName" =
          some (algetD [("phoneNumber", .str "not a phone")] "patientName" (.str "N/A")) ∧
        alget od "phoneNumber" =
          some (algetD [("phoneNumber", .str "not a phone")] "phoneNumber" (.str "N/A")) ∧
        alget od "emailAddress" =
          some (algetD [("phoneNumber", .str "not a phone")] "emailAddress" (.str "N/A"))) :=
  intake_default_fields (by simp) (by rfl) _ _ _ _

/-- Characterisation of every successful intake call: either it changed
nothing and attempted no database operation (the 400 paths), or the body
was a truthy JSON object and the single attempted operation is the write
of `order_data_to_save` under the generated serial number, applied to
the store exactly when the write did not raise. -/
theorem intake_some_cases {body : ParseResult} {d : Date} {picks : List Nat}
    {t : Timestamp} {wf : Bool} {store : Store} {o : Outcome}
    (h : handle_order_request body d picks t wf store = some o) :
    (o.store = store ∧ o.ops = []) ∨
    (∃ fields, body = .ok (.obj fields) ∧
      o.ops = [.write (mkSerial d picks) (orderDataToSave fields (mkSerial d picks) t)] ∧
      o.store = (if wf then store
        else storeSet store (mkSerial d picks)
          (orderDataToSave fields (mkSerial d picks) t))) := by
  cases body with
  | fail e =>
    left
    simp only [handle_order_request] at h
    rw [← Option.some.inj h]
    exact ⟨rfl, rfl⟩
  | ok v =>
    simp only [handle_order_request] at h
    split at h
    · left
      rw [← Option.some.inj h]
      exact ⟨rfl, rfl⟩
    · split at h
      · split at h
        · exact absurd h (by simp)
        · right
          refine ⟨_, rfl, ?_, ?_⟩
          · rw [← Option.some.inj h]
          · rw [← Option.some.inj h]
      · exact absurd h (by simp)

theorem jsonValFields_mem {l : List (String × PyVal)}
    (hj : jsonValFields l = true) {k : String} {v : PyVal}
    (hm : (k, v) ∈ l) : jsonVal v = true := by
  induction l with
  | nil => simp at hm
  | cons p rest ih =>
    obtain ⟨k1, v1⟩ := p
    rw [jsonValFields, Bool.and_eq_true] at hj
    rcases List.mem_cons.mp hm with he | hr
    · obtain ⟨he1, he2⟩ := Prod.mk.injEq .. ▸ he
      rw [he2]
      exact hj.1
    · exact ih hj.2 hr

theorem algetD_not_timestamp {fields : List (String × PyVal)}
    (hj : jsonValFields fields = true) (key : String) {dflt : PyVal}
    (hd : ∀ ts : Timestamp, dflt ≠ .timestamp ts) (ts : Timestamp) :
    algetD fields key dflt ≠ .timestamp ts := by
  unfold algetD
  cases halget : alget fields key with
  | none => simpa using hd ts
  | some v =>
    intro hv
    have hvj := jsonValFields_mem hj (alget_mem halget)
    rw [Option.getD_some] at hv
    rw [hv] at hvj
    simp [jsonVal] at hvj

/-- In the document intake saves for a JSON body, the only key that can
carry a datetime-like value is `orderDate`. -/
theorem orderDataToSave_timestamp_key {fields : List (String × PyVal)}
    (hj : jsonValFields fields = true) {serial : String} {t : Timestamp}
    {k : String} {ts : Timestamp}
    (hm : (k, PyVal.timestamp ts) ∈ orderDataToSave fields serial t) :
    k = "orderDate" := by
  simp only [orderDataToSave, List.mem_cons, List.mem_singleton, Prod.mk.injEq] at hm
  rcases hm with ⟨_, he⟩ | ⟨_, he⟩ | ⟨_, he⟩ | ⟨_, he⟩ | ⟨_, he⟩ | ⟨hk, _⟩ | hf
  · exact absurd he.symm (by simp)
  · exact absurd he.symm (algetD_not_timestamp hj "patientName" (by intro ts2; simp) ts)
  · exact absurd he.symm (algetD_not_timestamp hj "phoneNumber" (by intro ts2; simp) ts)
  · exact absurd he.symm (algetD_not_timestamp hj "emailAddress" (by intro ts2; simp) ts)
  · exact absurd he.symm (algetD_not_timestamp hj "tests" (by intro ts2; simp) ts)
  · exact hk
  · simp at hf

/-- The invariant `storeInv` holds of every store this system can
produce. -/
theorem reachable_storeInv {store : Store} (h : Reachable store) :
    storeInv store := by
  induction h with
  | empty =>
    intro key doc hm
    simp at hm
  | intake_step s body d picks t wf o hre hjson hrun ih =>
    rcases intake_some_cases hrun with ⟨hst, _⟩ | ⟨fields, hbody, hops, hst⟩
    · rw [hst]
      exact ih
    · rw [hst]
      subst hbody
      cases wf with
      | true =>
        simpa using ih
      | false =>
        rw [if_neg (by simp)]
        intro key doc hm
        rw [storeSet] at hm
        rcases List.mem_cons.mp hm with he | hf
        · injection he with he1 he2
          intro k ts hkt
          rw [he2] at hkt
          exact orderDataToSave_timestamp_key hjson hkt
        · exact ih key doc (List.mem_filter.mp hf).1

/-- The lookup handler returns the store unchanged and attempts only
reads, on every path. -/
theorem get_order_status_frame (body : ParseResult) (rf : Option String)
    (store : Store) :
    (get_order_status body rf store).store = store ∧
    ∀ op ∈ (get_order_status body rf store).ops, ∃ k, op = DbOp.read k := by
  unfold get_order_status
  rcases body with e | v
  · exact ⟨rfl, by simp⟩
  · rcases v with _ | b | n | s | l | fields | t
    case obj =>
      dsimp only
      split
      · exact ⟨rfl, by simp⟩
      · split
        · split
          · exact ⟨rfl, by simp⟩
          · split
            · exact ⟨rfl, by simp⟩
            · exact ⟨rfl, by simp⟩
        · exact ⟨rfl, by simp⟩
    all_goals exact ⟨rfl, by simp⟩

/-- C8: for every stored order document — every document in a store this
system produced — that the lookup handler returns, each datetime-like
field of the document (by the invariant, only `orderDate` can be one) is
returned converted to its `YYYY-MM-DD HH:MM:SS` display string. -/
theorem lookup_converts_stored_timestamps
    {store : Store} (hreach : Reachable store) {sn : String}
    (hne : sn.data ≠ []) {doc : Doc} (hdoc : alget store sn = some doc) :
    ∃ od,
      (get_order_status (.ok (.obj [("serialNumber", .str sn)])) none store).resp.code = 200 ∧
      bodyField (get_order_status (.ok (.obj [("serialNumber", .str sn)])) none store).resp
        "order" = some (.obj od) ∧
      ∀ k ts, alget doc k = some (.timestamp ts) →
        alget od k = some (.str (strftimeFull ts)) := by
  have hlk := lookup_found_run hne hdoc
  refine ⟨convertOrderDate doc, by rw [hlk], by rw [hlk]; simp [bodyField, alget], ?_⟩
  intro k ts hk
  have hkod : k = "orderDate" :=
    reachable_storeInv hreach sn doc (alget_mem hdoc) k ts (alget_mem hk)
  subst hkod
  unfold convertOrderDate
  rw [hk]
  exact alget_alset_self hk _

/-- Witness for C8 on the store produced by one concrete intake call:
the stored `orderDate` timestamp comes back as its display string. -/
theorem lookup_converts_stored_timestamps_witness :
    ∃ od,
      (get_order_status (.ok (.obj [("serialNumber", .str demoSerial)])) none
        demoStore).resp.code = 200 ∧
      bodyField (get_order_status (.ok (.obj [("serialNumber", .str demoSerial)])) none
        demoStore).resp "order" = some (.obj od) ∧
      alget od "orderDate" = some (.str (strftimeFull ⟨2025, 5, 31, 10, 0, 0⟩)) := by
  have hreach : Reachable demoStore :=
    Reachable.intake_step [] (.ok (.obj [("patientName", .str "Jane Doe")]))
      ⟨2025, 5, 31⟩ [1, 2, 3, 4, 5, 6] ⟨2025, 5, 31, 10, 0, 0⟩ false
      ⟨⟨200, .obj [("success", .bool true),
                   ("message", .str "Order received successfully by Receiving App!"),
                   ("serialNumber", .str demoSerial),
                   ("patientName", .str "Jane Doe"),
                   ("selected_tests", .arr [])]⟩, demoStore,
       [.write demoSerial demoDoc]⟩
      Reachable.empty rfl (by rfl)
  obtain ⟨od, h1, h2, h3⟩ :=
    lookup_converts_stored_timestamps hreach (by decide)
      (show alget demoStore demoSerial = some demoDoc from rfl)
  exact ⟨od, h1, h2, h3 "orderDate" ⟨2025, 5, 31, 10, 0, 0⟩ rfl⟩

/-- C9: orders are created once at intake and never updated or deleted
by any handler.  The lookup handler returns the store unchanged and
attempts only reads; every successful intake call attempts at most the
one write of the freshly serialled document, which is applied exactly
when the write does not raise; and that `set` replaces any existing
document at the key with no existence check. -/
theorem handlers_store_effects :
    (∀ (body : ParseResult) (rf : Option String) (store : Store),
       (get_order_status body rf store).store = store ∧
       ∀ op ∈ (get_order_status body rf store).ops, ∃ k, op = DbOp.read k) ∧
    (∀ (body : ParseResult) (d : Date) (picks : List Nat) (t : Timestamp)
       (wf : Bool) (store : Store) (o : Outcome),
       handle_order_request body d picks t wf store = some o →
       (o.store = store ∧ o.ops = []) ∨
       (∃ fields, body = .ok (.obj fields) ∧
         o.ops = [.write (mkSerial d picks) (orderDataToSave fields (mkSerial d picks) t)] ∧
         o.store = (if wf then store
           else storeSet store (mkSerial d picks)
             (orderDataToSave fields (mkSerial d picks) t)))) ∧
    (∀ (store : Store) (k : String) (doc : Doc),
       alget (storeSet store k doc) k = some doc) :=
  ⟨get_order_status_frame,
   fun _ _ _ _ _ _ _ h => intake_some_cases h,
   alget_storeSet_self⟩

/-- Witness for C9: the lookup leaves a concrete store unchanged; a
concrete intake call with a failing write falls in the write-attempted,
store-unchanged branch; and `set` overwrites at the key. -/
theorem handlers_store_effects_witness :
    (get_order_status (.ok (.obj [("serialNumber", .str "KPL-000000-AAAAAA")]))
      none []).store = [] ∧
    ((demoOutcome.store = [] ∧ demoOutcome.ops = []) ∨
     (∃ fields, (ParseResult.ok (.obj [("patientName", PyVal.str "Jane Doe")])) = .ok (.obj fields) ∧
       demoOutcome.ops = [.write (mkSerial ⟨2025, 5, 31⟩ [1, 2, 3, 4, 5, 6])
         (orderDataToSave fields (mkSerial ⟨2025, 5, 31⟩ [1, 2, 3, 4, 5, 6]) ⟨2025, 5, 31, 10, 0, 0⟩)] ∧
       demoOutcome.store = (if true then ([] : Store)
         else storeSet [] (mkSerial ⟨2025, 5, 31⟩ [1, 2, 3, 4, 5, 6])
           (orderDataToSave fields (mkSerial ⟨2025, 5, 31⟩ [1, 2, 3, 4, 5, 6]) ⟨2025, 5, 31, 10, 0, 0⟩)))) ∧
    alget (storeSet [] demoSerial demoDoc) demoSerial = some demoDoc :=
  ⟨(handlers_store_effects.1 (.ok (.obj [("serialNumber", .str "KPL-000000-AAAAAA")])) none []).1,
   handlers_store_effects.2.1 (.ok (.obj [("patientName", PyVal.str "Jane Doe")]))
     ⟨2025, 5, 31⟩ [1, 2, 3, 4, 5, 6] ⟨2025, 5, 31, 10, 0, 0⟩ true [] demoOutcome (by rfl),
   handlers_store_effects.2.2 [] demoSerial demoDoc⟩

end KPL
